import Mathlib

/-!
Verification development for the macOS platform adapter of the
`global-hotkey` crate (`src/platform_impl/macos/mod.rs` and `ffi.rs`).

The Rust code is shallowly embedded: pure lookup tables become Lean
functions, the manager state (registry map, media-key set, event-tap and
run-loop-source handles) becomes an explicit state record, and the calls
into the native OS (RegisterEventHotKey, CGEventTapCreate, ...) are
modelled by an oracle environment that decides the outcome of each native
call; every state-changing operation also returns the list of native calls
it performed.
-/

namespace GlobalHotkey

/-- Symbolic key codes (`keyboard_types::Code`), restricted to the
constructors the macOS adapter distinguishes: every code named in
`key_to_scancode`, the five media codes named in `is_media_key`, and two
representatives (`Fn`, `ContextMenu`) of the codes that fall to the
default branch of both matches. -/
inductive Code where
  | KeyA | KeyS | KeyD | KeyF | KeyH | KeyG | KeyZ | KeyX | KeyC | KeyV
  | KeyB | KeyQ | KeyW | KeyE | KeyR | KeyY | KeyT
  | Digit1 | Digit2 | Digit3 | Digit4 | Digit6 | Digit5
  | Equal | Digit9 | Digit7 | Minus | Digit8 | Digit0
  | BracketRight | KeyO | KeyU | BracketLeft | KeyI | KeyP
  | Enter | KeyL | KeyJ | Quote | KeyK | Semicolon | Backslash
  | Comma | Slash | KeyN | KeyM | Period | Tab | Space | Backquote
  | Backspace | Escape | F17 | NumpadDecimal | NumpadMultiply | NumpadAdd
  | NumLock | AudioVolumeUp | AudioVolumeDown | AudioVolumeMute
  | NumpadDivide | NumpadEnter | NumpadSubtract | F18 | F19 | NumpadEqual
  | Numpad0 | Numpad1 | Numpad2 | Numpad3 | Numpad4 | Numpad5 | Numpad6
  | Numpad7 | F20 | Numpad8 | Numpad9
  | F5 | F6 | F7 | F3 | F8 | F9 | F11 | F13 | F16 | F14 | F10 | F12 | F15
  | Insert | Home | PageUp | Delete | F4 | End | F2 | PageDown | F1
  | ArrowLeft | ArrowRight | ArrowDown | ArrowUp | CapsLock | PrintScreen
  | MediaPlayPause | MediaTrackNext | MediaTrackPrevious
  | MediaFastForward | MediaRewind
  | Fn | ContextMenu
  deriving DecidableEq, Repr, Fintype

/-- Abstract modifier bit-set (`keyboard_types::Modifiers`), restricted to
the flags the macOS adapter reads or writes: SHIFT, CONTROL, ALT, META and
SUPER. -/
structure Modifiers where
  shift : Bool
  control : Bool
  alt : Bool
  meta : Bool
  superKey : Bool
  deriving DecidableEq, Repr, Fintype

/-- Empty modifier set (`Modifiers::empty()`). -/
def Modifiers.empty : Modifiers :=
  { shift := false, control := false, alt := false, meta := false, superKey := false }

/-- Scan-code table from `key_to_scancode` in `mod.rs` (lines 434-543),
entry for entry. -/
def key_to_scancode : Code → Option Nat
  | .KeyA => some 0x00
  | .KeyS => some 0x01
  | .KeyD => some 0x02
  | .KeyF => some 0x03
  | .KeyH => some 0x04
  | .KeyG => some 0x05
  | .KeyZ => some 0x06
  | .KeyX => some 0x07
  | .KeyC => some 0x08
  | .KeyV => some 0x09
  | .KeyB => some 0x0b
  | .KeyQ => some 0x0c
  | .KeyW => some 0x0d
  | .KeyE => some 0x0e
  | .KeyR => some 0x0f
  | .KeyY => some 0x10
  | .KeyT => some 0x11
  | .Digit1 => some 0x12
  | .Digit2 => some 0x13
  | .Digit3 => some 0x14
  | .Digit4 => some 0x15
  | .Digit6 => some 0x16
  | .Digit5 => some 0x17
  | .Equal => some 0x18
  | .Digit9 => some 0x19
  | .Digit7 => some 0x1a
  | .Minus => some 0x1b
  | .Digit8 => some 0x1c
  | .Digit0 => some 0x1d
  | .BracketRight => some 0x1e
  | .KeyO => some 0x1f
  | .KeyU => some 0x20
  | .BracketLeft => some 0x21
  | .KeyI => some 0x22
  | .KeyP => some 0x23
  | .Enter => some 0x24
  | .KeyL => some 0x25
  | .KeyJ => some 0x26
  | .Quote => some 0x27
  | .KeyK => some 0x28
  | .Semicolon => some 0x29
  | .Backslash => some 0x2a
  | .Comma => some 0x2b
  | .Slash => some 0x2c
  | .KeyN => some 0x2d
  | .KeyM => some 0x2e
  | .Period => some 0x2f
  | .Tab => some 0x30
  | .Space => some 0x31
  | .Backquote => some 0x32
  | .Backspace => some 0x33
  | .Escape => some 0x35
  | .F17 => some 0x40
  | .NumpadDecimal => some 0x41
  | .NumpadMultiply => some 0x43
  | .NumpadAdd => some 0x45
  | .NumLock => some 0x47
  | .AudioVolumeUp => some 0x48
  | .AudioVolumeDown => some 0x49
  | .AudioVolumeMute => some 0x4a
  | .NumpadDivide => some 0x4b
  | .NumpadEnter => some 0x4c
  | .NumpadSubtract => some 0x4e
  | .F18 => some 0x4f
  | .F19 => some 0x50
  | .NumpadEqual => some 0x51
  | .Numpad0 => some 0x52
  | .Numpad1 => some 0x53
  | .Numpad2 => some 0x54
  | .Numpad3 => some 0x55
  | .Numpad4 => some 0x56
  | .Numpad5 => some 0x57
  | .Numpad6 => some 0x58
  | .Numpad7 => some 0x59
  | .F20 => some 0x5a
  | .Numpad8 => some 0x5b
  | .Numpad9 => some 0x5c
  | .F5 => some 0x60
  | .F6 => some 0x61
  | .F7 => some 0x62
  | .F3 => some 0x63
  | .F8 => some 0x64
  | .F9 => some 0x65
  | .F11 => some 0x67
  | .F13 => some 0x69
  | .F16 => some 0x6a
  | .F14 => some 0x6b
  | .F10 => some 0x6d
  | .F12 => some 0x6f
  | .F15 => some 0x71
  | .Insert => some 0x72
  | .Home => some 0x73
  | .PageUp => some 0x74
  | .Delete => some 0x75
  | .F4 => some 0x76
  | .End => some 0x77
  | .F2 => some 0x78
  | .PageDown => some 0x79
  | .F1 => some 0x7a
  | .ArrowLeft => some 0x7b
  | .ArrowRight => some 0x7c
  | .ArrowDown => some 0x7d
  | .ArrowUp => some 0x7e
  | .CapsLock => some 0x39
  | .PrintScreen => some 0x46
  | _ => none

/-- Media-key recognizer from `is_media_key` in `mod.rs` (lines 545-554). -/
def is_media_key : Code → Bool
  | .MediaPlayPause => true
  | .MediaTrackNext => true
  | .MediaTrackPrevious => true
  | .MediaFastForward => true
  | .MediaRewind => true
  | _ => false

/-- Abstract-to-native (Carbon) modifier translation, from the prologue of
`GlobalHotKeyManager::register` (`mod.rs` lines 88-101): SHIFT adds 512,
SUPER or META adds 256, ALT adds 2048, CONTROL adds 4096. -/
def carbonMods (m : Modifiers) : Nat :=
  let m0 : Nat := 0
  let m1 := if m.shift then m0 ||| 512 else m0
  let m2 := if m.superKey || m.meta then m1 ||| 256 else m1
  let m3 := if m.alt then m2 ||| 2048 else m2
  if m.control then m3 ||| 4096 else m3

/-- Bit positions of the four named `NSEventModifierFlags` (`mod.rs` lines
258-266): Shift = bit 17, Control = bit 18, Option = bit 19,
Command = bit 20. -/
def nsShiftFlag : Nat := 1 <<< 17

/-- Control flag bit of `NSEventModifierFlags`. -/
def nsControlFlag : Nat := 1 <<< 18

/-- Option flag bit of `NSEventModifierFlags`. -/
def nsOptionFlag : Nat := 1 <<< 19

/-- Command flag bit of `NSEventModifierFlags`. -/
def nsCommandFlag : Nat := 1 <<< 20

/-- Union of the four named flag bits (`NSEventModifierFlags::all()`). -/
def nsAllFlags : Nat := nsShiftFlag ||| nsControlFlag ||| nsOptionFlag ||| nsCommandFlag

/-- Semantics of `bitflags` `from_bits_truncate`: keep only the named
bits. -/
def nsFromBitsTruncate (bits : Nat) : Nat := bits &&& nsAllFlags

/-- Semantics of `bitflags` `contains`: all bits of the flag are set. -/
def nsContains (flags flag : Nat) : Bool := flags &&& flag == flag

/-- Native-to-abstract modifier translation, from
`impl From<NSEventModifierFlags> for Modifiers` (`mod.rs` lines 268-285):
Shift maps to SHIFT, Control to CONTROL, Option to ALT, Command to META;
the input has already passed through `from_bits_truncate`. -/
def modifiersFromNS (flags : Nat) : Modifiers :=
  { shift := nsContains flags nsShiftFlag
    control := nsContains flags nsControlFlag
    alt := nsContains flags nsOptionFlag
    meta := nsContains flags nsCommandFlag
    superKey := false }

/-- Modelled from the spec: a HotKey is a value type holding a symbolic
key code and a modifier bit-set (`crate::hotkey::HotKey` is not under
`src/`; the spec, section 3, describes it as key + modifiers with a
derived numeric identifier). -/
structure HotKey where
  mods : Modifiers
  key : Code
  deriving DecidableEq, Repr

/-- Modelled from the spec: packing of the modifier bit-set into a small
number, used by the identifier derivation below. -/
def modsNat (m : Modifiers) : Nat :=
  (cond m.shift 1 0) + (cond m.control 2 0) + (cond m.alt 4 0) +
    (cond m.meta 8 0) + (cond m.superKey 16 0)

/-- Modelled from the spec: a numbering of key codes, reusing the native
scan code when one exists and distinct numbers above every scan code for
the media keys. -/
def codeNat (k : Code) : Nat :=
  match key_to_scancode k with
  | some sc => sc
  | none =>
    match k with
    | .MediaPlayPause => 516
    | .MediaTrackNext => 517
    | .MediaTrackPrevious => 518
    | .MediaFastForward => 519
    | .MediaRewind => 520
    | _ => 999

/-- Modelled from the spec: the derived numeric identifier of a HotKey,
computed deterministically from key + modifiers (spec section 3: two
HotKey values with identical key+modifiers always collide on the same
identifier). -/
def HotKey.id (h : HotKey) : Nat := codeNat h.key * 32 + modsNat h.mods

/-- Constructor `HotKey::new(mods, key)`: an absent modifier argument
means the empty modifier set. -/
def HotKey.new (mods : Option Modifiers) (key : Code) : HotKey :=
  { mods := mods.getD Modifiers.empty, key := key }

/-- Error kinds of `crate::Error` as the macOS adapter produces them.
`FailedToRegister` carries the key code that the source formats into its
message string; the other payloads follow the source. -/
inductive Error where
  | OsError
  | FailedToRegister (key : Code)
  | FailedToUnRegister (hotkey : HotKey)
  | AlreadyRegistered (hotkey : HotKey)
  | FailedToWatchMediaKeyEvent
  deriving DecidableEq, Repr

/-- Payload of `EventHotKeyID` (`ffi.rs` lines 76-81). -/
structure EventHotKeyID where
  signature : Nat
  id : Nat
  deriving DecidableEq, Repr

/-- Signature tag built in `register` by folding the characters of
"htrs" (`mod.rs` lines 106-116). -/
def hotkeySignature : Nat :=
  List.foldl (fun res c => (res <<< 8) + c) 0 [104, 116, 114, 115]

/-- Native calls the adapter can perform, recorded as a trace so that
theorems can speak about which native operations a call invoked. -/
inductive NativeCall where
  | registerHotKey (scanCode mods : Nat) (hotkeyID : EventHotKeyID)
  | unregisterHotKey (ptr : Nat)
  | tapCreate
  | runLoopSourceCreate (tap : Nat)
  | machPortInvalidate (tap : Nat)
  | releaseResource (handle : Nat)
  | runLoopAddSource (src : Nat)
  | tapEnable (tap : Nat)
  | runLoopRemoveSource (src : Nat)
  deriving DecidableEq, Repr

/-- `HotKeyWrapper` (`mod.rs` lines 426-430): native handle plus the
hotkey it registered. -/
structure HotKeyWrapper where
  ptr : Nat
  hotkey : HotKey
  deriving DecidableEq, Repr

/-- Mutable state of `GlobalHotKeyManager` (`mod.rs` lines 37-43): the
registry map (`BTreeMap<u32, HotKeyWrapper>` as an association list), the
two optional native handles, and the media-key set (`HashSet<HotKey>` as
a duplicate-free list). -/
structure ManagerState where
  hotkeys : List (Nat × HotKeyWrapper)
  event_tap : Option Nat
  event_tap_source : Option Nat
  media_hotkeys : List HotKey
  deriving DecidableEq, Repr

/-- State of a freshly constructed manager (`GlobalHotKeyManager::new`,
after a successful `InstallEventHandler`). -/
def initialState : ManagerState :=
  { hotkeys := [], event_tap := none, event_tap_source := none, media_hotkeys := [] }

/-- Oracle for the outcomes of the native calls: `RegisterEventHotKey`
yields a handle on success, `UnregisterEventHotKey` succeeds or fails,
`CGEventTapCreate` and `CFMachPortCreateRunLoopSource` yield handles or
null. -/
structure NativeEnv where
  registerEventHotKey : Nat → Nat → EventHotKeyID → Option Nat
  unregisterEventHotKey : Nat → Bool
  tapCreate : Option Nat
  runLoopSource : Nat → Option Nat

/-- Result of one manager operation: the returned `crate::Result`, the
state after the call, and the native calls performed. -/
structure StepOut where
  res : Except Error Unit
  state : ManagerState
  calls : List NativeCall
  deriving Repr

/-- Insertion into the registry map, with the `BTreeMap::insert` semantics
of replacing an existing binding of the same key. -/
def mapInsert (k : Nat) (v : HotKeyWrapper) : List (Nat × HotKeyWrapper) → List (Nat × HotKeyWrapper)
  | [] => [(k, v)]
  | (k1, v1) :: rest => if k1 = k then (k, v) :: rest else (k1, v1) :: mapInsert k v rest

/-- Removal from the registry map (`BTreeMap::remove`). -/
def eraseKey (k : Nat) : List (Nat × HotKeyWrapper) → List (Nat × HotKeyWrapper)
  | [] => []
  | (k1, v1) :: rest => if k1 = k then rest else (k1, v1) :: eraseKey k rest

/-- `GlobalHotKeyManager::start_watching_media_keys` (`mod.rs` lines
201-241): return success immediately when a tap or source is already
installed; otherwise create the tap (failure: `FailedToWatchMediaKeyEvent`
with nothing installed), then the run-loop source (failure: invalidate and
release the tap, reset it to `None`, same error), then attach the source
to the main run loop and enable the tap. -/
def start_watching_media_keys (env : NativeEnv) (s : ManagerState) : StepOut :=
  if s.event_tap.isSome || s.event_tap_source.isSome then
    { res := .ok (), state := s, calls := [] }
  else
    match env.tapCreate with
    | none =>
      { res := .error .FailedToWatchMediaKeyEvent, state := s, calls := [.tapCreate] }
    | some tap =>
      let s1 := { s with event_tap := some tap }
      match env.runLoopSource tap with
      | none =>
        { res := .error .FailedToWatchMediaKeyEvent
          state := { s1 with event_tap := none }
          calls := [.tapCreate, .runLoopSourceCreate tap, .machPortInvalidate tap,
            .releaseResource tap] }
      | some src =>
        { res := .ok ()
          state := { s1 with event_tap_source := some src }
          calls := [.tapCreate, .runLoopSourceCreate tap, .runLoopAddSource src,
            .tapEnable tap] }

/-- `GlobalHotKeyManager::stop_watching_media_keys` (`mod.rs` lines
243-255): take the run-loop source if present, detach and release it;
then take the tap if present, invalidate and release it. -/
def stop_watching_media_keys (s : ManagerState) : ManagerState × List NativeCall :=
  let (s1, calls1) :=
    match s.event_tap_source with
    | some src =>
      ({ s with event_tap_source := none }, [NativeCall.runLoopRemoveSource src, .releaseResource src])
    | none => (s, [])
  let (s2, calls2) :=
    match s1.event_tap with
    | some tap =>
      ({ s1 with event_tap := none }, [NativeCall.machPortInvalidate tap, .releaseResource tap])
    | none => (s1, [])
  (s2, calls1 ++ calls2)

/-- `GlobalHotKeyManager::register` (`mod.rs` lines 88-159): translate the
modifiers to Carbon form; if the key has a scan code, call
`RegisterEventHotKey` (failure: `FailedToRegister`, success: store the
entry); otherwise if the key is a media key, insert it into the media set
(already present: `AlreadyRegistered`) and start watching media keys;
otherwise fail with `FailedToRegister`. -/
def register (env : NativeEnv) (s : ManagerState) (hotkey : HotKey) : StepOut :=
  let mods := carbonMods hotkey.mods
  match key_to_scancode hotkey.key with
  | some scan_code =>
    let hotkey_id : EventHotKeyID := { signature := hotkeySignature, id := hotkey.id }
    match env.registerEventHotKey scan_code mods hotkey_id with
    | none =>
      { res := .error (.FailedToRegister hotkey.key), state := s
        calls := [.registerHotKey scan_code mods hotkey_id] }
    | some ptr =>
      { res := .ok ()
        state := { s with hotkeys := mapInsert hotkey.id ⟨ptr, hotkey⟩ s.hotkeys }
        calls := [.registerHotKey scan_code mods hotkey_id] }
  | none =>
    if is_media_key hotkey.key then
      if s.media_hotkeys.contains hotkey then
        { res := .error (.AlreadyRegistered hotkey), state := s, calls := [] }
      else
        start_watching_media_keys env { s with media_hotkeys := hotkey :: s.media_hotkeys }
    else
      { res := .error (.FailedToRegister hotkey.key), state := s, calls := [] }

/-- `GlobalHotKeyManager::unregister` (`mod.rs` lines 161-173): for a
media key, remove it from the media set and stop watching when the set
became empty; otherwise remove the registry entry if present and call
`UnregisterEventHotKey` on its handle (failure: `FailedToUnRegister`);
always `Ok` when nothing was found. -/
def unregister (env : NativeEnv) (s : ManagerState) (hotkey : HotKey) : StepOut :=
  if is_media_key hotkey.key then
    let media1 := s.media_hotkeys.filter (fun x => x != hotkey)
    let s1 := { s with media_hotkeys := media1 }
    if media1.isEmpty then
      let (s2, calls) := stop_watching_media_keys s1
      { res := .ok (), state := s2, calls := calls }
    else
      { res := .ok (), state := s1, calls := [] }
  else
    match List.lookup hotkey.id s.hotkeys with
    | some w =>
      let s1 := { s with hotkeys := eraseKey hotkey.id s.hotkeys }
      if env.unregisterEventHotKey w.ptr then
        { res := .ok (), state := s1, calls := [.unregisterHotKey w.ptr] }
      else
        { res := .error (.FailedToUnRegister hotkey), state := s1
          calls := [.unregisterHotKey w.ptr] }
    | none => { res := .ok (), state := s, calls := [] }

/-- States reachable from a fresh manager by completed `register` and
`unregister` calls, under arbitrary native-call outcomes. -/
inductive Reachable : ManagerState → Prop where
  | init : Reachable initialState
  | reg {s : ManagerState} (env : NativeEnv) (h : HotKey) :
      Reachable s → Reachable (register env s h).state
  | unreg {s : ManagerState} (env : NativeEnv) (h : HotKey) :
      Reachable s → Reachable (unregister env s h).state

/-- Press or release state of a delivered event (`crate::HotKeyState`). -/
inductive HotKeyState where
  | Pressed
  | Released
  deriving DecidableEq, Repr

/-- `crate::GlobalHotKeyEvent`: numeric identifier plus press/release
state, as pushed to the global event channel. -/
structure GlobalHotKeyEvent where
  id : Nat
  state : HotKeyState
  deriving DecidableEq, Repr

/-- Carbon constant `kEventHotKeyPressed` (`ffi.rs` line 70). -/
def kEventHotKeyPressed : Nat := 5

/-- Carbon constant `kEventHotKeyReleased` (`ffi.rs` line 72). -/
def kEventHotKeyReleased : Nat := 6

/-- Carbon constant `noErr` (`ffi.rs` line 74). -/
def noErr : Nat := 0

/-- Standard-path handler `hotkey_handler` (`mod.rs` lines 337-372).
`extracted` is the result of `GetEventParameter`: `some` of the embedded
`EventHotKeyID` when it succeeds, `none` otherwise; `eventKind` is
`GetEventKind`. Returns the events pushed to the channel and the returned
`OSStatus`, which is always `noErr`. -/
def hotkey_handler (extracted : Option EventHotKeyID) (eventKind : Nat) :
    List GlobalHotKeyEvent × Nat :=
  match extracted with
  | none => ([], noErr)
  | some event_hotkey =>
    if eventKind = kEventHotKeyPressed then
      ([{ id := event_hotkey.id, state := .Pressed }], noErr)
    else if eventKind = kEventHotKeyReleased then
      ([{ id := event_hotkey.id, state := .Released }], noErr)
    else
      ([], noErr)

/-- `CGEventType::SystemDefined` (`ffi.rs` line 176). -/
def cgEventTypeSystemDefined : Nat := 14

/-- `NSEventType::NSSystemDefined` raw value from the `cocoa` crate. -/
def nsEventTypeSystemDefined : Nat := 14

/-- Decoded fields of the `NSEvent` wrapped around the intercepted
`CGEventRef`: type, subtype, `data1` and `modifierFlags` as read by the
callback under `msg_send`. -/
structure NSEventData where
  eventType : Nat
  subtype : Nat
  data1 : Nat
  modifierFlags : Nat
  deriving DecidableEq, Repr

/-- `NX_KEYTYPE::try_from` (`mod.rs` lines 297-310) composed with the
extraction `(data1 & 0xFFFF0000) >> 16` used at the call site. -/
def nxKeytypeOfData1 (data1 : Nat) : Option Code :=
  match (data1 &&& 0xFFFF0000) >>> 16 with
  | 16 => some .MediaPlayPause
  | 17 => some .MediaTrackNext
  | 18 => some .MediaTrackPrevious
  | 19 => some .MediaFastForward
  | 20 => some .MediaRewind
  | _ => none

/-- Media-key interception callback `media_key_event_callback` (`mod.rs`
lines 374-424). Returns the events pushed to the channel together with
`some ev` when the original event is passed through unchanged and `none`
when the callback returns null to suppress it. -/
def media_key_event_callback (evType : Nat) (ev : NSEventData)
    (media_hotkeys : List HotKey) : List GlobalHotKeyEvent × Option NSEventData :=
  if evType ≠ cgEventTypeSystemDefined then
    ([], some ev)
  else if ev.eventType = nsEventTypeSystemDefined ∧ ev.subtype = 8 then
    match nxKeytypeOfData1 ev.data1 with
    | none => ([], some ev)
    | some code =>
      let mods := modifiersFromNS (nsFromBitsTruncate ev.modifierFlags)
      let hotkey := HotKey.new (some mods) code
      match media_hotkeys.find? (fun h => h == hotkey) with
      | some media_hotkey =>
        let key_flags := ev.data1 &&& 0x0000FFFF
        let is_pressed : Bool := ((key_flags &&& 0xFF00) >>> 8) == 0xA
        ([{ id := media_hotkey.id
            state := if is_pressed then .Pressed else .Released }], none)
      | none => ([], some ev)
  else
    ([], some ev)

deriving instance DecidableEq for Except

deriving instance DecidableEq for StepOut

set_option maxRecDepth 16000

/-! Helper facts about the translation tables, all settled by evaluation
over the finite types. -/

/-- Media keys are deliberately excluded from the scan-code table. -/
theorem media_scancode_none : ∀ k : Code, is_media_key k = true → key_to_scancode k = none := by
  decide

/-- Every scan code in the table is at most 0x7e. -/
theorem scancode_codeNat_le : ∀ k : Code, (key_to_scancode k).isSome = true → codeNat k ≤ 126 := by
  decide

/-- The numbering of media keys sits strictly above every scan code. -/
theorem media_codeNat_ge : ∀ k : Code, is_media_key k = true → 516 ≤ codeNat k := by
  decide

/-- The numbering separates the five media keys. -/
theorem media_codeNat_inj :
    ∀ k1 k2 : Code, is_media_key k1 = true → is_media_key k2 = true →
      codeNat k1 = codeNat k2 → k1 = k2 := by
  decide

/-- The modifier packing stays below 32. -/
theorem modsNat_lt : ∀ m : Modifiers, modsNat m < 32 := by decide

/-- The modifier packing is injective. -/
theorem modsNat_inj : ∀ m1 m2 : Modifiers, modsNat m1 = modsNat m2 → m1 = m2 := by decide

/-- Two hotkeys with the same derived identifier have the same key
numbering and the same modifier packing. -/
theorem hotkey_id_split {h1 h2 : HotKey} (h : h1.id = h2.id) :
    codeNat h1.key = codeNat h2.key ∧ modsNat h1.mods = modsNat h2.mods := by
  have b1 := modsNat_lt h1.mods
  have b2 := modsNat_lt h2.mods
  unfold HotKey.id at h
  omega

/-! Branch-level equations for the manager operations, used to settle the
claims without re-stepping through the source each time. -/

theorem start_watching_installed (env : NativeEnv) {s : ManagerState}
    (hg : (s.event_tap.isSome || s.event_tap_source.isSome) = true) :
    start_watching_media_keys env s = { res := .ok (), state := s, calls := [] } := by
  simp [start_watching_media_keys, hg]

theorem start_watching_tap_fail (env : NativeEnv) {s : ManagerState}
    (hg : (s.event_tap.isSome || s.event_tap_source.isSome) = false)
    (ht : env.tapCreate = none) :
    start_watching_media_keys env s =
      { res := .error .FailedToWatchMediaKeyEvent, state := s, calls := [.tapCreate] } := by
  simp [start_watching_media_keys, hg, ht]

theorem start_watching_source_fail (env : NativeEnv) {s : ManagerState} {tap : Nat}
    (hg : (s.event_tap.isSome || s.event_tap_source.isSome) = false)
    (ht : env.tapCreate = some tap) (hl : env.runLoopSource tap = none) :
    start_watching_media_keys env s =
      { res := .error .FailedToWatchMediaKeyEvent
        state := { s with event_tap := none }
        calls := [.tapCreate, .runLoopSourceCreate tap, .machPortInvalidate tap,
          .releaseResource tap] } := by
  simp [start_watching_media_keys, hg, ht, hl]

theorem start_watching_ok (env : NativeEnv) {s : ManagerState} {tap src : Nat}
    (hg : (s.event_tap.isSome || s.event_tap_source.isSome) = false)
    (ht : env.tapCreate = some tap) (hl : env.runLoopSource tap = some src) :
    start_watching_media_keys env s =
      { res := .ok ()
        state := { s with event_tap := some tap, event_tap_source := some src }
        calls := [.tapCreate, .runLoopSourceCreate tap, .runLoopAddSource src,
          .tapEnable tap] } := by
  simp [start_watching_media_keys, hg, ht, hl]

theorem register_std_fail (env : NativeEnv) (s : ManagerState) {h : HotKey} {sc : Nat}
    (hsc : key_to_scancode h.key = some sc)
    (hr : env.registerEventHotKey sc (carbonMods h.mods)
      { signature := hotkeySignature, id := h.id } = none) :
    register env s h =
      { res := .error (.FailedToRegister h.key), state := s
        calls := [.registerHotKey sc (carbonMods h.mods)
          { signature := hotkeySignature, id := h.id }] } := by
  simp [register, hsc, hr]

theorem register_std_ok (env : NativeEnv) (s : ManagerState) {h : HotKey} {sc ptr : Nat}
    (hsc : key_to_scancode h.key = some sc)
    (hr : env.registerEventHotKey sc (carbonMods h.mods)
      { signature := hotkeySignature, id := h.id } = some ptr) :
    register env s h =
      { res := .ok ()
        state := { s with hotkeys := mapInsert h.id ⟨ptr, h⟩ s.hotkeys }
        calls := [.registerHotKey sc (carbonMods h.mods)
          { signature := hotkeySignature, id := h.id }] } := by
  simp [register, hsc, hr]

theorem register_media_dup (env : NativeEnv) (s : ManagerState) {h : HotKey}
    (hsc : key_to_scancode h.key = none) (hm : is_media_key h.key = true)
    (hc : s.media_hotkeys.contains h = true) :
    register env s h = { res := .error (.AlreadyRegistered h), state := s, calls := [] } := by
  simp only [register, hsc, hm, hc]
  simp

theorem register_media_new (env : NativeEnv) (s : ManagerState) {h : HotKey}
    (hsc : key_to_scancode h.key = none) (hm : is_media_key h.key = true)
    (hc : s.media_hotkeys.contains h = false) :
    register env s h =
      start_watching_media_keys env { s with media_hotkeys := h :: s.media_hotkeys } := by
  simp only [register, hsc, hm, hc]
  simp

theorem register_unknown (env : NativeEnv) (s : ManagerState) {h : HotKey}
    (hsc : key_to_scancode h.key = none) (hm : is_media_key h.key = false) :
    register env s h = { res := .error (.FailedToRegister h.key), state := s, calls := [] } := by
  simp [register, hsc, hm]

theorem unregister_media_empty (env : NativeEnv) (s : ManagerState) {h : HotKey}
    (hm : is_media_key h.key = true)
    (he : (s.media_hotkeys.filter (fun x => x != h)).isEmpty = true) :
    unregister env s h =
      { res := .ok ()
        state := (stop_watching_media_keys
          { s with media_hotkeys := s.media_hotkeys.filter (fun x => x != h) }).1
        calls := (stop_watching_media_keys
          { s with media_hotkeys := s.media_hotkeys.filter (fun x => x != h) }).2 } := by
  simp [unregister, hm, he]

theorem unregister_media_nonempty (env : NativeEnv) (s : ManagerState) {h : HotKey}
    (hm : is_media_key h.key = true)
    (he : (s.media_hotkeys.filter (fun x => x != h)).isEmpty = false) :
    unregister env s h =
      { res := .ok ()
        state := { s with media_hotkeys := s.media_hotkeys.filter (fun x => x != h) }
        calls := [] } := by
  simp [unregister, hm, he]

theorem unregister_std_found (env : NativeEnv) (s : ManagerState) {h : HotKey}
    {w : HotKeyWrapper} (hm : is_media_key h.key = false)
    (hl : List.lookup h.id s.hotkeys = some w) :
    unregister env s h =
      { res := if env.unregisterEventHotKey w.ptr then .ok ()
          else .error (.FailedToUnRegister h)
        state := { s with hotkeys := eraseKey h.id s.hotkeys }
        calls := [.unregisterHotKey w.ptr] } := by
  by_cases hu : env.unregisterEventHotKey w.ptr <;> simp [unregister, hm, hl, hu]

theorem unregister_std_missing (env : NativeEnv) (s : ManagerState) {h : HotKey}
    (hm : is_media_key h.key = false) (hl : List.lookup h.id s.hotkeys = none) :
    unregister env s h = { res := .ok (), state := s, calls := [] } := by
  simp [unregister, hm, hl]

theorem stop_watching_state (s : ManagerState) :
    (stop_watching_media_keys s).1 = { s with event_tap := none, event_tap_source := none } := by
  obtain ⟨hk, et, ets, mh⟩ := s
  cases et <;> cases ets <;> simp [stop_watching_media_keys]

/-! Helper facts about the association-list embedding of the registry
map. -/

theorem mapInsert_cons_eq (k : Nat) (v v1 : HotKeyWrapper) (rest : List (Nat × HotKeyWrapper)) :
    mapInsert k v ((k, v1) :: rest) = (k, v) :: rest := by
  simp [mapInsert]

theorem mapInsert_cons_ne {k1 k : Nat} (hk : k1 ≠ k) (v v1 : HotKeyWrapper)
    (rest : List (Nat × HotKeyWrapper)) :
    mapInsert k v ((k1, v1) :: rest) = (k1, v1) :: mapInsert k v rest := by
  simp [mapInsert, hk]

theorem eraseKey_cons_eq (k : Nat) (v1 : HotKeyWrapper) (rest : List (Nat × HotKeyWrapper)) :
    eraseKey k ((k, v1) :: rest) = rest := by
  simp [eraseKey]

theorem eraseKey_cons_ne {k1 k : Nat} (hk : k1 ≠ k) (v1 : HotKeyWrapper)
    (rest : List (Nat × HotKeyWrapper)) :
    eraseKey k ((k1, v1) :: rest) = (k1, v1) :: eraseKey k rest := by
  simp [eraseKey, hk]

theorem lookup_cons_self (k : Nat) (v1 : HotKeyWrapper) (rest : List (Nat × HotKeyWrapper)) :
    List.lookup k ((k, v1) :: rest) = some v1 := by
  simp [List.lookup]

theorem lookup_cons_ne {k k1 : Nat} (hk : k ≠ k1) (v1 : HotKeyWrapper)
    (rest : List (Nat × HotKeyWrapper)) :
    List.lookup k ((k1, v1) :: rest) = List.lookup k rest := by
  have hb : (k == k1) = false := beq_eq_false_iff_ne.mpr hk
  simp [List.lookup, hb]

theorem mem_mapInsert {p : Nat × HotKeyWrapper} {k : Nat} {v : HotKeyWrapper} :
    ∀ {l : List (Nat × HotKeyWrapper)}, p ∈ mapInsert k v l → p = (k, v) ∨ p ∈ l := by
  intro l
  induction l with
  | nil => intro hp; simpa [mapInsert] using hp
  | cons q rest ih =>
    obtain ⟨k1, v1⟩ := q
    intro hp
    by_cases hk : k1 = k
    · subst hk
      rw [mapInsert_cons_eq] at hp
      rcases List.mem_cons.mp hp with h1 | h1
      · exact Or.inl h1
      · exact Or.inr (List.mem_cons_of_mem _ h1)
    · rw [mapInsert_cons_ne hk] at hp
      rcases List.mem_cons.mp hp with h1 | h1
      · exact Or.inr (h1 ▸ List.mem_cons_self _ _)
      · rcases ih h1 with h2 | h2
        · exact Or.inl h2
        · exact Or.inr (List.mem_cons_of_mem _ h2)

theorem mem_keys_mapInsert {a k : Nat} {v : HotKeyWrapper}
    {l : List (Nat × HotKeyWrapper)}
    (ha : a ∈ (mapInsert k v l).map Prod.fst) : a = k ∨ a ∈ l.map Prod.fst := by
  rcases List.mem_map.mp ha with ⟨p, hp, hpa⟩
  rcases mem_mapInsert hp with h1 | h1
  · exact Or.inl (by rw [← hpa, h1])
  · exact Or.inr (hpa ▸ List.mem_map_of_mem _ h1)

theorem keys_nodup_mapInsert {k : Nat} {v : HotKeyWrapper} :
    ∀ {l : List (Nat × HotKeyWrapper)}, (l.map Prod.fst).Nodup →
      ((mapInsert k v l).map Prod.fst).Nodup := by
  intro l
  induction l with
  | nil => intro _; simp [mapInsert]
  | cons q rest ih =>
    obtain ⟨k1, v1⟩ := q
    intro hnd
    rw [List.map_cons, List.nodup_cons] at hnd
    by_cases hk : k1 = k
    · subst hk
      rw [mapInsert_cons_eq, List.map_cons, List.nodup_cons]
      exact hnd
    · rw [mapInsert_cons_ne hk, List.map_cons, List.nodup_cons]
      refine ⟨fun hmem => ?_, ih hnd.2⟩
      rcases mem_keys_mapInsert hmem with h1 | h1
      · exact hk h1
      · exact hnd.1 h1

theorem mem_eraseKey {p : Nat × HotKeyWrapper} {k : Nat} :
    ∀ {l : List (Nat × HotKeyWrapper)}, p ∈ eraseKey k l → p ∈ l := by
  intro l
  induction l with
  | nil => intro hp; simp [eraseKey] at hp
  | cons q rest ih =>
    obtain ⟨k1, v1⟩ := q
    intro hp
    by_cases hk : k1 = k
    · subst hk
      rw [eraseKey_cons_eq] at hp
      exact List.mem_cons_of_mem _ hp
    · rw [eraseKey_cons_ne hk] at hp
      rcases List.mem_cons.mp hp with h1 | h1
      · exact h1 ▸ List.mem_cons_self _ _
      · exact List.mem_cons_of_mem _ (ih h1)

theorem keys_nodup_eraseKey {k : Nat} :
    ∀ {l : List (Nat × HotKeyWrapper)}, (l.map Prod.fst).Nodup →
      ((eraseKey k l).map Prod.fst).Nodup := by
  intro l
  induction l with
  | nil => intro _; simp [eraseKey]
  | cons q rest ih =>
    obtain ⟨k1, v1⟩ := q
    intro hnd
    rw [List.map_cons, List.nodup_cons] at hnd
    by_cases hk : k1 = k
    · subst hk
      rw [eraseKey_cons_eq]
      exact hnd.2
    · rw [eraseKey_cons_ne hk, List.map_cons, List.nodup_cons]
      refine ⟨fun hmem => ?_, ih hnd.2⟩
      rcases List.mem_map.mp hmem with ⟨p, hp, hpa⟩
      have h2 : p.1 ∈ List.map Prod.fst rest :=
        List.mem_map_of_mem Prod.fst (mem_eraseKey hp)
      rw [hpa] at h2
      exact hnd.1 h2

theorem lookup_mem {k : Nat} {w : HotKeyWrapper} :
    ∀ {l : List (Nat × HotKeyWrapper)}, List.lookup k l = some w → (k, w) ∈ l := by
  intro l
  induction l with
  | nil => intro hp; simp [List.lookup] at hp
  | cons q rest ih =>
    obtain ⟨k1, v1⟩ := q
    intro hp
    by_cases hk : k = k1
    · subst hk
      rw [lookup_cons_self] at hp
      obtain rfl := Option.some_injective _ hp
      exact List.mem_cons_self _ _
    · rw [lookup_cons_ne hk] at hp
      exact List.mem_cons_of_mem _ (ih hp)

theorem lookup_none_of_not_mem_keys {k : Nat} :
    ∀ {l : List (Nat × HotKeyWrapper)}, k ∉ l.map Prod.fst → List.lookup k l = none := by
  intro l
  induction l with
  | nil => intro _; rfl
  | cons q rest ih =>
    obtain ⟨k1, v1⟩ := q
    intro hk
    simp only [List.map_cons, List.mem_cons] at hk
    push_neg at hk
    rw [lookup_cons_ne hk.1]
    exact ih hk.2

theorem lookup_eraseKey_self {k : Nat} :
    ∀ {l : List (Nat × HotKeyWrapper)}, (l.map Prod.fst).Nodup →
      List.lookup k (eraseKey k l) = none := by
  intro l
  induction l with
  | nil => intro _; simp [eraseKey]
  | cons q rest ih =>
    obtain ⟨k1, v1⟩ := q
    intro hnd
    rw [List.map_cons, List.nodup_cons] at hnd
    by_cases hk : k1 = k
    · subst hk
      rw [eraseKey_cons_eq]
      exact lookup_none_of_not_mem_keys hnd.1
    · rw [eraseKey_cons_ne hk, lookup_cons_ne (fun h1 => hk h1.symm)]
      exact ih hnd.2

/-! Invariant maintained by every completed `register` / `unregister`
call. -/

/-- State invariant: the tap and its run-loop source are paired, the tap
only exists while the media set is non-empty, every registry entry is
keyed by its hotkey identifier and holds a key with a scan code, the map
keys are unique, and the media set holds media keys without
duplicates. -/
structure Inv (s : ManagerState) : Prop where
  tap_iff_source : s.event_tap.isSome = s.event_tap_source.isSome
  tap_media : s.event_tap.isSome = true → s.media_hotkeys ≠ []
  std_entries : ∀ p ∈ s.hotkeys,
    (key_to_scancode p.2.hotkey.key).isSome = true ∧ p.1 = p.2.hotkey.id
  keys_nodup : (s.hotkeys.map Prod.fst).Nodup
  media_keys : ∀ h ∈ s.media_hotkeys, is_media_key h.key = true
  media_nodup : s.media_hotkeys.Nodup

theorem inv_initial : Inv initialState := by
  constructor <;> simp [initialState]

theorem inv_start_watching (env : NativeEnv) {s : ManagerState} (hs : Inv s)
    (hm : s.media_hotkeys ≠ []) : Inv (start_watching_media_keys env s).state := by
  by_cases hg : (s.event_tap.isSome || s.event_tap_source.isSome) = true
  · rw [start_watching_installed env hg]
    exact hs
  · rw [Bool.not_eq_true] at hg
    cases ht : env.tapCreate with
    | none =>
      rw [start_watching_tap_fail env hg ht]
      exact hs
    | some tap =>
      cases hl : env.runLoopSource tap with
      | none =>
        rw [start_watching_source_fail env hg ht hl]
        constructor
        · rw [Bool.or_eq_false_iff] at hg
          simp [hg.2]
        · simp
        · exact hs.std_entries
        · exact hs.keys_nodup
        · exact hs.media_keys
        · exact hs.media_nodup
      | some src =>
        rw [start_watching_ok env hg ht hl]
        constructor
        · simp
        · intro _; exact hm
        · exact hs.std_entries
        · exact hs.keys_nodup
        · exact hs.media_keys
        · exact hs.media_nodup

theorem inv_register (env : NativeEnv) (s : ManagerState) (h : HotKey) (hs : Inv s) :
    Inv (register env s h).state := by
  cases hsc : key_to_scancode h.key with
  | some sc =>
    cases hr : env.registerEventHotKey sc (carbonMods h.mods)
        { signature := hotkeySignature, id := h.id } with
    | none =>
      rw [register_std_fail env s hsc hr]
      exact hs
    | some ptr =>
      rw [register_std_ok env s hsc hr]
      constructor
      · exact hs.tap_iff_source
      · exact hs.tap_media
      · intro p hp
        rcases mem_mapInsert hp with rfl | hp1
        · exact ⟨by simp [hsc], rfl⟩
        · exact hs.std_entries p hp1
      · exact keys_nodup_mapInsert hs.keys_nodup
      · exact hs.media_keys
      · exact hs.media_nodup
  | none =>
    cases hmed : is_media_key h.key with
    | false =>
      rw [register_unknown env s hsc hmed]
      exact hs
    | true =>
      cases hc : s.media_hotkeys.contains h with
      | true =>
        rw [register_media_dup env s hsc hmed hc]
        exact hs
      | false =>
        rw [register_media_new env s hsc hmed hc]
        refine inv_start_watching env ?_ (by simp)
        constructor
        · exact hs.tap_iff_source
        · intro _; simp
        · exact hs.std_entries
        · exact hs.keys_nodup
        · intro x hx
          rcases List.mem_cons.mp hx with rfl | hx1
          · exact hmed
          · exact hs.media_keys x hx1
        · refine List.nodup_cons.mpr ⟨fun hmem => ?_, hs.media_nodup⟩
          have hc2 : s.media_hotkeys.contains h = true := List.elem_iff.mpr hmem
          rw [hc2] at hc
          exact Bool.true_eq_false.mp hc

theorem inv_unregister (env : NativeEnv) (s : ManagerState) (h : HotKey) (hs : Inv s) :
    Inv (unregister env s h).state := by
  cases hmed : is_media_key h.key with
  | true =>
    have hmem : ∀ x ∈ s.media_hotkeys.filter (fun y => y != h), x ∈ s.media_hotkeys :=
      fun x hx => List.mem_of_mem_filter hx
    cases he : (s.media_hotkeys.filter (fun y => y != h)).isEmpty with
    | true =>
      rw [unregister_media_empty env s hmed he]
      rw [stop_watching_state]
      constructor
      · simp
      · simp
      · exact hs.std_entries
      · exact hs.keys_nodup
      · exact fun x hx => hs.media_keys x (hmem x hx)
      · exact List.Nodup.filter _ hs.media_nodup
    | false =>
      rw [unregister_media_nonempty env s hmed he]
      constructor
      · exact hs.tap_iff_source
      · intro _
        intro hnil
        have hnil2 : List.filter (fun y => y != h) s.media_hotkeys = [] := hnil
        rw [hnil2] at he
        simp at he
      · exact hs.std_entries
      · exact hs.keys_nodup
      · exact fun x hx => hs.media_keys x (hmem x hx)
      · exact List.Nodup.filter _ hs.media_nodup
  | false =>
    cases hl : List.lookup h.id s.hotkeys with
    | none =>
      rw [unregister_std_missing env s hmed hl]
      exact hs
    | some w =>
      rw [unregister_std_found env s hmed hl]
      constructor
      · exact hs.tap_iff_source
      · exact hs.tap_media
      · exact fun p hp => hs.std_entries p (mem_eraseKey hp)
      · exact keys_nodup_eraseKey hs.keys_nodup
      · exact hs.media_keys
      · exact hs.media_nodup

theorem reachable_inv {s : ManagerState} (hr : Reachable s) : Inv s := by
  induction hr with
  | init => exact inv_initial
  | reg env h _ ih => exact inv_register env _ h ih
  | unreg env h _ ih => exact inv_unregister env _ h ih

/-! Bit-level facts for the modifier translation. -/

theorem nsContains_two_pow (f i : Nat) : nsContains f (1 <<< i) = f.testBit i := by
  unfold nsContains
  rw [Nat.shiftLeft_eq, one_mul, Nat.and_two_pow]
  cases hb : f.testBit i
  · simp only [Bool.toNat_false, Nat.zero_mul, beq_eq_false_iff_ne, ne_eq]
    exact fun h1 => (Nat.two_pow_pos i).ne' h1.symm
  · simp

theorem truncate_testBit (bits i : Nat) (hi : nsAllFlags.testBit i = true) :
    (nsFromBitsTruncate bits).testBit i = bits.testBit i := by
  unfold nsFromBitsTruncate
  rw [Nat.testBit_land, hi, Bool.and_true]

theorem modifiersFromNS_truncate (bits : Nat) :
    modifiersFromNS (nsFromBitsTruncate bits) =
      { shift := bits.testBit 17, control := bits.testBit 18, alt := bits.testBit 19,
        meta := bits.testBit 20, superKey := false } := by
  have h17 : nsContains (nsFromBitsTruncate bits) nsShiftFlag = bits.testBit 17 := by
    rw [show nsShiftFlag = 1 <<< 17 from rfl, nsContains_two_pow,
      truncate_testBit _ _ (by decide)]
  have h18 : nsContains (nsFromBitsTruncate bits) nsControlFlag = bits.testBit 18 := by
    rw [show nsControlFlag = 1 <<< 18 from rfl, nsContains_two_pow,
      truncate_testBit _ _ (by decide)]
  have h19 : nsContains (nsFromBitsTruncate bits) nsOptionFlag = bits.testBit 19 := by
    rw [show nsOptionFlag = 1 <<< 19 from rfl, nsContains_two_pow,
      truncate_testBit _ _ (by decide)]
  have h20 : nsContains (nsFromBitsTruncate bits) nsCommandFlag = bits.testBit 20 := by
    rw [show nsCommandFlag = 1 <<< 20 from rfl, nsContains_two_pow,
      truncate_testBit _ _ (by decide)]
  unfold modifiersFromNS
  rw [h17, h18, h19, h20]

/-- C8: modifier translation is bit-for-bit over the fixed named bit
positions and lossless for the four supported modifiers. The
native-to-abstract map carries NSEvent flag bit 17 to SHIFT, 18 to
CONTROL, 19 to ALT and 20 to META and ignores every other native bit; the
abstract-to-native (Carbon) map loses nothing about which of the four
supported modifiers (Shift, Control, Alt, merged Super/Meta) is present;
and each supported modifier is recoverable from a fixed bit of the Carbon
word (shift at bit 9, super/meta at bit 8, alt at bit 11, control at
bit 12). -/
theorem c8_modifier_translation_lossless :
    (∀ bits : Nat, modifiersFromNS (nsFromBitsTruncate bits) =
      { shift := bits.testBit 17, control := bits.testBit 18, alt := bits.testBit 19,
        meta := bits.testBit 20, superKey := false }) ∧
    (∀ m1 m2 : Modifiers, carbonMods m1 = carbonMods m2 →
      m1.shift = m2.shift ∧ m1.control = m2.control ∧ m1.alt = m2.alt ∧
      (m1.superKey || m1.meta) = (m2.superKey || m2.meta)) ∧
    (∀ m : Modifiers, (carbonMods m).testBit 9 = m.shift ∧
      (carbonMods m).testBit 8 = (m.superKey || m.meta) ∧
      (carbonMods m).testBit 11 = m.alt ∧ (carbonMods m).testBit 12 = m.control) := by
  refine ⟨modifiersFromNS_truncate, by decide, by decide⟩

/-- Concrete modifier set used to instantiate the C8 losslessness
statement. -/
def mWitness : Modifiers :=
  { shift := true, control := false, alt := true, meta := false, superKey := true }

/-- C8 witness: the losslessness instantiated at a concrete modifier
set. -/
theorem c8_modifier_translation_lossless_witness :
    mWitness.shift = mWitness.shift ∧ mWitness.control = mWitness.control ∧
      mWitness.alt = mWitness.alt ∧
      (mWitness.superKey || mWitness.meta) = (mWitness.superKey || mWitness.meta) :=
  c8_modifier_translation_lossless.2.1 mWitness mWitness rfl

/-- C3: dispatch of `register` on the standard path. For a key with a
native scan code the native registration call is invoked (it is the one
recorded native call); on native success the call returns Ok and the
registry gains the (identifier, handle/hotkey) entry; on native failure it
returns FailedToRegister and the registry is unchanged. For a key with
neither scan code nor media classification the call returns
FailedToRegister. -/
theorem c3_register_dispatch (env : NativeEnv) (s : ManagerState) (h : HotKey) :
    (∀ sc : Nat, key_to_scancode h.key = some sc →
      (register env s h).calls = [.registerHotKey sc (carbonMods h.mods)
        { signature := hotkeySignature, id := h.id }] ∧
      (∀ ptr : Nat, env.registerEventHotKey sc (carbonMods h.mods)
          { signature := hotkeySignature, id := h.id } = some ptr →
        (register env s h).res = .ok () ∧
        (register env s h).state =
          { s with hotkeys := mapInsert h.id ⟨ptr, h⟩ s.hotkeys }) ∧
      (env.registerEventHotKey sc (carbonMods h.mods)
          { signature := hotkeySignature, id := h.id } = none →
        (register env s h).res = .error (.FailedToRegister h.key) ∧
        (register env s h).state = s)) ∧
    (key_to_scancode h.key = none → is_media_key h.key = false →
      (register env s h).res = .error (.FailedToRegister h.key) ∧
      (register env s h).state = s) := by
  constructor
  · intro sc hsc
    refine ⟨?_, ?_, ?_⟩
    · cases hr : env.registerEventHotKey sc (carbonMods h.mods)
          { signature := hotkeySignature, id := h.id } with
      | none => rw [register_std_fail env s hsc hr]
      | some ptr => rw [register_std_ok env s hsc hr]
    · intro ptr hr
      rw [register_std_ok env s hsc hr]
      exact ⟨rfl, rfl⟩
    · intro hr
      rw [register_std_fail env s hsc hr]
      exact ⟨rfl, rfl⟩
  · intro hsc hmed
    rw [register_unknown env s hsc hmed]
    exact ⟨rfl, rfl⟩

/-- C5: re-registering a media hotkey already in the media set fails with
AlreadyRegistered and leaves the state (in particular the size of the
media set) unchanged. -/
theorem c5_media_duplicate_rejected (env : NativeEnv) (s : ManagerState) (h : HotKey)
    (hmed : is_media_key h.key = true) (hm : h ∈ s.media_hotkeys) :
    register env s h = { res := .error (.AlreadyRegistered h), state := s, calls := [] } ∧
    (register env s h).state.media_hotkeys.length = s.media_hotkeys.length := by
  have hsc := media_scancode_none h.key hmed
  have hc : s.media_hotkeys.contains h = true := List.elem_iff.mpr hm
  have heq := register_media_dup env s hsc hmed hc
  exact ⟨heq, by rw [heq]⟩

/-- C6: the standard-path handler emits exactly one event with the
embedded identifier, Pressed for the pressed kind and Released for the
released kind, and silently drops notifications whose identifier cannot
be extracted while still returning noErr. -/
theorem c6_hotkey_handler_events :
    (∀ ehid : EventHotKeyID, hotkey_handler (some ehid) kEventHotKeyPressed =
      ([{ id := ehid.id, state := .Pressed }], noErr)) ∧
    (∀ ehid : EventHotKeyID, hotkey_handler (some ehid) kEventHotKeyReleased =
      ([{ id := ehid.id, state := .Released }], noErr)) ∧
    (∀ kind : Nat, hotkey_handler none kind = ([], noErr)) :=
  ⟨fun _ => rfl, fun _ => rfl, fun _ => rfl⟩

/-! Concrete hotkeys, environments and states used to instantiate the
claims. -/

/-- Media play/pause hotkey with no modifiers. -/
def hPlay : HotKey := HotKey.new none .MediaPlayPause

/-- Standard hotkey on the A key with no modifiers. -/
def hKeyA : HotKey := HotKey.new none .KeyA

/-- Environment in which `CGEventTapCreate` fails. -/
def envTapFail : NativeEnv :=
  { registerEventHotKey := fun _ _ _ => none, unregisterEventHotKey := fun _ => true,
    tapCreate := none, runLoopSource := fun _ => none }

/-- Environment in which every native call succeeds, handing out handles
7, 1 and 2. -/
def envAllOk : NativeEnv :=
  { registerEventHotKey := fun _ _ _ => some 7, unregisterEventHotKey := fun _ => true,
    tapCreate := some 1, runLoopSource := fun _ => some 2 }

/-- Environment in which registration succeeds with handle 7 but
`UnregisterEventHotKey` fails. -/
def envRegOk : NativeEnv :=
  { registerEventHotKey := fun _ _ _ => some 7, unregisterEventHotKey := fun _ => false,
    tapCreate := some 1, runLoopSource := fun _ => some 2 }

/-- Manager state holding the play/pause hotkey in the media set and no
native tap resources. -/
def sPlay : ManagerState :=
  { hotkeys := [], event_tap := none, event_tap_source := none, media_hotkeys := [hPlay] }

/-- Manager state with tap and run-loop-source handles installed. -/
def sInstalled : ManagerState :=
  { hotkeys := [], event_tap := some 1, event_tap_source := some 2,
    media_hotkeys := [hPlay] }

/-- Manager state reached by registering the A hotkey under `envRegOk`. -/
def sKeyA : ManagerState := (register envRegOk initialState hKeyA).state

/-- C1 counterexample: starting from a fresh manager, registering a media
hotkey while tap creation fails returns FailedToWatchMediaKeyEvent, yet
the media set after the call differs from the set before it (the hotkey
stays inserted), contradicting the claim that the set is unchanged. -/
theorem c1_counterexample :
    (register envTapFail initialState hPlay).res = .error .FailedToWatchMediaKeyEvent ∧
    (register envTapFail initialState hPlay).state.media_hotkeys ≠
      initialState.media_hotkeys := by
  constructor
  · decide
  · decide

/-- C1 (amended): when registering a fresh media hotkey fails with
FailedToWatchMediaKeyEvent, the hotkey remains inserted — the media set
afterwards is the old set with the hotkey prepended — while the registry
map and the tap and run-loop-source handles are unchanged. -/
theorem c1_failed_watch_keeps_insertion (env : NativeEnv) (s : ManagerState) (h : HotKey)
    (hmed : is_media_key h.key = true) (hc : s.media_hotkeys.contains h = false)
    (hres : (register env s h).res = .error .FailedToWatchMediaKeyEvent) :
    (register env s h).state.media_hotkeys = h :: s.media_hotkeys ∧
    (register env s h).state.event_tap = s.event_tap ∧
    (register env s h).state.event_tap_source = s.event_tap_source ∧
    (register env s h).state.hotkeys = s.hotkeys := by
  have hsc := media_scancode_none h.key hmed
  rw [register_media_new env s hsc hmed hc] at hres ⊢
  by_cases hg : (({ s with media_hotkeys := h :: s.media_hotkeys} : ManagerState).event_tap.isSome
      || ({ s with media_hotkeys := h :: s.media_hotkeys} : ManagerState).event_tap_source.isSome) = true
  · rw [start_watching_installed env hg] at hres
    exact absurd hres (by simp)
  · rw [Bool.not_eq_true] at hg
    cases ht : env.tapCreate with
    | none =>
      rw [start_watching_tap_fail env hg ht]
      exact ⟨rfl, rfl, rfl, rfl⟩
    | some tap =>
      cases hl : env.runLoopSource tap with
      | none =>
        rw [start_watching_source_fail env hg ht hl]
        refine ⟨rfl, ?_, rfl, rfl⟩
        rw [Bool.or_eq_false_iff] at hg
        cases hopt : s.event_tap with
        | none => rfl
        | some t =>
          have := hg.1
          rw [show ({ s with media_hotkeys := h :: s.media_hotkeys} : ManagerState).event_tap
            = s.event_tap from rfl, hopt] at this
          simp at this
      | some src =>
        rw [start_watching_ok env hg ht hl] at hres
        exact absurd hres (by simp)

/-- C1 witness: the amended statement evaluated in a concrete failing
environment. -/
theorem c1_failed_watch_keeps_insertion_witness :
    (register envTapFail initialState hPlay).state.media_hotkeys =
      hPlay :: initialState.media_hotkeys ∧
    (register envTapFail initialState hPlay).state.event_tap = initialState.event_tap ∧
    (register envTapFail initialState hPlay).state.event_tap_source =
      initialState.event_tap_source ∧
    (register envTapFail initialState hPlay).state.hotkeys = initialState.hotkeys :=
  c1_failed_watch_keeps_insertion envTapFail initialState hPlay (by decide) (by decide)
    (by decide)

/-- C4: in every state reachable by completed register/unregister calls
the tap handle and the run-loop-source handle are both present or both
absent, and requesting activation while both are installed is a no-op
success that performs no native calls. -/
theorem c4_tap_source_paired_idempotent :
    (∀ s : ManagerState, Reachable s →
      s.event_tap.isSome = s.event_tap_source.isSome) ∧
    (∀ (env : NativeEnv) (s : ManagerState), s.event_tap.isSome = true →
      s.event_tap_source.isSome = true →
      start_watching_media_keys env s = { res := .ok (), state := s, calls := [] }) := by
  constructor
  · exact fun s hr => (reachable_inv hr).tap_iff_source
  · intro env s h1 h2
    exact start_watching_installed env (by rw [h1, Bool.true_or])

/-- C4 witness: the pairing at the initial state and the idempotent no-op
at a concrete installed state. -/
theorem c4_tap_source_paired_idempotent_witness :
    initialState.event_tap.isSome = initialState.event_tap_source.isSome ∧
    start_watching_media_keys envAllOk sInstalled =
      { res := .ok (), state := sInstalled, calls := [] } :=
  ⟨c4_tap_source_paired_idempotent.1 initialState Reachable.init,
    c4_tap_source_paired_idempotent.2 envAllOk sInstalled (by decide) (by decide)⟩

/-- C3 witness: standard registration of the A key in an all-success
environment stores the entry and returns Ok. -/
theorem c3_register_dispatch_witness :
    (register envAllOk initialState hKeyA).res = .ok () ∧
    (register envAllOk initialState hKeyA).state =
      { initialState with hotkeys := mapInsert hKeyA.id ⟨7, hKeyA⟩ initialState.hotkeys } :=
  ((c3_register_dispatch envAllOk initialState hKeyA).1 0 (by decide)).2.1 7 (by decide)

/-- C5 witness: duplicate registration of play/pause against a state
already holding it. -/
theorem c5_media_duplicate_rejected_witness :
    register envAllOk sPlay hPlay =
      { res := .error (.AlreadyRegistered hPlay), state := sPlay, calls := [] } ∧
    (register envAllOk sPlay hPlay).state.media_hotkeys.length =
      sPlay.media_hotkeys.length :=
  c5_media_duplicate_rejected envAllOk sPlay hPlay (by decide) (by decide)

/-- Stopping the watcher when no tap and no source are installed changes
nothing and performs no native calls. -/
theorem stop_watching_noop {s : ManagerState} (h1 : s.event_tap = none)
    (h2 : s.event_tap_source = none) : stop_watching_media_keys s = (s, []) := by
  obtain ⟨hk, et, ets, mh⟩ := s
  have e1 : et = none := h1
  have e2 : ets = none := h2
  subst e1
  subst e2
  rfl

/-- C2: behavior of the media-key interception callback on a
system-defined event that decodes to a supported media key. When the
constructed hotkey matches a member of the media set, the callback emits
exactly one event carrying the matched member identifier with the
press/release state decoded from the same payload and returns null
(suppression); when it matches no member, it emits nothing and returns the
original event unchanged. -/
theorem c2_media_callback_match_and_passthrough (ev : NSEventData) (ms : List HotKey)
    (code : Code) (het : ev.eventType = nsEventTypeSystemDefined) (hst : ev.subtype = 8)
    (hnx : nxKeytypeOfData1 ev.data1 = some code) :
    (∀ mh : HotKey, ms.find? (fun x => x ==
        HotKey.new (some (modifiersFromNS (nsFromBitsTruncate ev.modifierFlags))) code) =
          some mh →
      mh ∈ ms ∧
      media_key_event_callback cgEventTypeSystemDefined ev ms =
        ([{ id := mh.id
            state := if ((ev.data1 &&& 0x0000FFFF) &&& 0xFF00) >>> 8 == 0xA
              then .Pressed else .Released }], none)) ∧
    (HotKey.new (some (modifiersFromNS (nsFromBitsTruncate ev.modifierFlags))) code ∉ ms →
      media_key_event_callback cgEventTypeSystemDefined ev ms = ([], some ev)) := by
  constructor
  · intro mh hfind
    refine ⟨List.mem_of_find?_eq_some hfind, ?_⟩
    unfold media_key_event_callback
    rw [if_neg (by simp), if_pos ⟨het, hst⟩, hnx]
    simp [hfind]
  · intro hnm
    have hfind : ms.find? (fun x => x ==
        HotKey.new (some (modifiersFromNS (nsFromBitsTruncate ev.modifierFlags))) code) =
          none := by
      rw [List.find?_eq_none]
      intro x hx
      intro heq
      exact hnm (beq_iff_eq.mp heq ▸ hx)
    unfold media_key_event_callback
    rw [if_neg (by simp), if_pos ⟨het, hst⟩, hnx]
    simp [hfind]

/-- System-defined NSEvent carrying the play/pause key press with no
modifier flags. -/
def evPlay : NSEventData :=
  { eventType := 14, subtype := 8, data1 := (16 <<< 16) + (0xA <<< 8), modifierFlags := 0 }

/-- C2 witness: the callback on the concrete play/pause press, with the
hotkey registered (suppression and one emitted event) and without it
(pass-through and no event). -/
theorem c2_media_callback_match_and_passthrough_witness :
    (hPlay ∈ [hPlay] ∧
      media_key_event_callback cgEventTypeSystemDefined evPlay [hPlay] =
        ([{ id := hPlay.id, state := .Pressed }], none)) ∧
    media_key_event_callback cgEventTypeSystemDefined evPlay [] = ([], some evPlay) :=
  ⟨(c2_media_callback_match_and_passthrough evPlay [hPlay] .MediaPlayPause rfl rfl
      rfl).1 hPlay (by decide),
   (c2_media_callback_match_and_passthrough evPlay [] .MediaPlayPause rfl rfl
      rfl).2 (by decide)⟩

/-- Entries of an association list with duplicate-free keys are determined
by their key. -/
theorem assoc_unique {i : Nat} {w1 w2 : HotKeyWrapper} :
    ∀ {l : List (Nat × HotKeyWrapper)}, (l.map Prod.fst).Nodup →
      (i, w1) ∈ l → (i, w2) ∈ l → w1 = w2 := by
  intro l
  induction l with
  | nil => intro _ h1; simp at h1
  | cons q rest ih =>
    intro hnd h1 h2
    rw [List.map_cons, List.nodup_cons] at hnd
    rcases List.mem_cons.mp h1 with e1 | m1
    · rcases List.mem_cons.mp h2 with e2 | m2
      · exact congrArg Prod.snd (e1.trans e2.symm)
      · exfalso
        apply hnd.1
        rw [← e1]
        have hm : (i, w2).1 ∈ List.map Prod.fst rest := List.mem_map_of_mem Prod.fst m2
        exact hm
    · rcases List.mem_cons.mp h2 with e2 | m2
      · exfalso
        apply hnd.1
        rw [← e2]
        have hm : (i, w1).1 ∈ List.map Prod.fst rest := List.mem_map_of_mem Prod.fst m1
        exact hm
      · exact ih hnd.2 m1 m2

/-- C7: the scan-code table rejects all five media keys, and in every
reachable state an identifier labels at most one registry entry, at most
one media-set member, and never one of each — the standard and media
storage paths are disjoint. -/
theorem c7_identifier_paths_disjoint :
    (key_to_scancode Code.MediaPlayPause = none ∧
     key_to_scancode Code.MediaTrackNext = none ∧
     key_to_scancode Code.MediaTrackPrevious = none ∧
     key_to_scancode Code.MediaFastForward = none ∧
     key_to_scancode Code.MediaRewind = none) ∧
    (∀ s : ManagerState, Reachable s → ∀ i : Nat,
      (∀ w1 w2 : HotKeyWrapper, (i, w1) ∈ s.hotkeys → (i, w2) ∈ s.hotkeys → w1 = w2) ∧
      (∀ a b : HotKey, a ∈ s.media_hotkeys → b ∈ s.media_hotkeys →
        a.id = i → b.id = i → a = b) ∧
      ¬((∃ w : HotKeyWrapper, (i, w) ∈ s.hotkeys) ∧
        (∃ a : HotKey, a ∈ s.media_hotkeys ∧ a.id = i))) := by
  refine ⟨⟨rfl, rfl, rfl, rfl, rfl⟩, ?_⟩
  intro s hr i
  have hinv := reachable_inv hr
  refine ⟨fun w1 w2 h1 h2 => assoc_unique hinv.keys_nodup h1 h2, ?_, ?_⟩
  · intro a b ha hb hia hib
    have hsplit := hotkey_id_split (hia.trans hib.symm)
    have hkey := media_codeNat_inj a.key b.key (hinv.media_keys a ha)
      (hinv.media_keys b hb) hsplit.1
    have hmods := modsNat_inj a.mods b.mods hsplit.2
    calc a = ⟨a.mods, a.key⟩ := rfl
      _ = ⟨b.mods, b.key⟩ := by rw [hmods, hkey]
      _ = b := rfl
  · rintro ⟨⟨w, hw⟩, ⟨a, ha, hia⟩⟩
    obtain ⟨hscan, hkeyid⟩ := hinv.std_entries (i, w) hw
    have hkeyid2 : i = w.hotkey.id := hkeyid
    have hscan2 : (key_to_scancode w.hotkey.key).isSome = true := hscan
    have hsplit := hotkey_id_split (hia.trans hkeyid2)
    have hle := scancode_codeNat_le w.hotkey.key hscan2
    have hge := media_codeNat_ge a.key (hinv.media_keys a ha)
    have h1 := hsplit.1
    omega

/-- C7 witness: no identifier labels both storage paths in the initial
state. -/
theorem c7_identifier_paths_disjoint_witness :
    ¬((∃ w : HotKeyWrapper, (0, w) ∈ initialState.hotkeys) ∧
      (∃ a : HotKey, a ∈ initialState.media_hotkeys ∧ a.id = 0)) :=
  (c7_identifier_paths_disjoint.2 initialState Reachable.init 0).2.2

/-- C9: on the standard path, the registry entry is removed before the
native unregistration call, so when that call fails, unregister returns
FailedToUnRegister while the entry stays removed (lookup of the
identifier now misses) and the only native call is the unregistration of
the stored handle. -/
theorem c9_unregister_failure_entry_removed (env : NativeEnv) (s : ManagerState)
    (h : HotKey) (w : HotKeyWrapper) (hr : Reachable s)
    (hmed : is_media_key h.key = false)
    (hl : List.lookup h.id s.hotkeys = some w)
    (hu : env.unregisterEventHotKey w.ptr = false) :
    (unregister env s h).res = .error (.FailedToUnRegister h) ∧
    (unregister env s h).state.hotkeys = eraseKey h.id s.hotkeys ∧
    List.lookup h.id (unregister env s h).state.hotkeys = none ∧
    (unregister env s h).calls = [.unregisterHotKey w.ptr] := by
  have heq := unregister_std_found env s hmed hl
  rw [heq]
  refine ⟨by rw [hu]; rfl, rfl, ?_, rfl⟩
  exact lookup_eraseKey_self (reachable_inv hr).keys_nodup

/-- C9 witness: registering the A key and then unregistering it in an
environment where native unregistration fails. -/
theorem c9_unregister_failure_entry_removed_witness :
    (unregister envRegOk sKeyA hKeyA).res = .error (.FailedToUnRegister hKeyA) ∧
    (unregister envRegOk sKeyA hKeyA).state.hotkeys = eraseKey hKeyA.id sKeyA.hotkeys ∧
    List.lookup hKeyA.id (unregister envRegOk sKeyA hKeyA).state.hotkeys = none ∧
    (unregister envRegOk sKeyA hKeyA).calls = [.unregisterHotKey 7] :=
  c9_unregister_failure_entry_removed envRegOk sKeyA hKeyA ⟨7, hKeyA⟩
    (Reachable.reg envRegOk hKeyA Reachable.init) (by decide) (by decide) (by decide)

/-- C10: unregistering a hotkey that is not currently registered — a
media key absent from the media set, or a standard key whose identifier
misses the registry — returns Ok and leaves the whole state unchanged
with no native calls; there is no not-found error. -/
theorem c10_unregister_missing_noop (env : NativeEnv) (s : ManagerState) (h : HotKey)
    (hr : Reachable s) :
    (is_media_key h.key = true → h ∉ s.media_hotkeys →
      unregister env s h = { res := .ok (), state := s, calls := [] }) ∧
    (is_media_key h.key = false → List.lookup h.id s.hotkeys = none →
      unregister env s h = { res := .ok (), state := s, calls := [] }) := by
  constructor
  · intro hmed hnm
    have hfil : s.media_hotkeys.filter (fun x => x != h) = s.media_hotkeys := by
      apply List.filter_eq_self.mpr
      intro a ha
      exact bne_iff_ne.mpr (fun hEq => hnm (hEq ▸ ha))
    cases he : (s.media_hotkeys.filter (fun x => x != h)).isEmpty with
    | false =>
      rw [unregister_media_nonempty env s hmed he, hfil]
    | true =>
      have hemp : s.media_hotkeys = [] := by
        rw [hfil] at he
        exact List.isEmpty_iff.mp he
      have hinv := reachable_inv hr
      have htap : s.event_tap = none := by
        cases hopt : s.event_tap with
        | none => rfl
        | some t => exact absurd hemp (hinv.tap_media (by rw [hopt]; rfl))
      have hsrc : s.event_tap_source = none := by
        have hts := hinv.tap_iff_source
        rw [htap] at hts
        cases hopt : s.event_tap_source with
        | none => rfl
        | some t => rw [hopt] at hts; simp at hts
      rw [unregister_media_empty env s hmed he, hfil,
        stop_watching_noop (s := { s with media_hotkeys := s.media_hotkeys }) htap hsrc]
  · intro hmed hl
    exact unregister_std_missing env s hmed hl

/-- C10 witness: unregistering the unregistered play/pause and A hotkeys
on a fresh manager. -/
theorem c10_unregister_missing_noop_witness :
    unregister envAllOk initialState hPlay =
      { res := .ok (), state := initialState, calls := [] } ∧
    unregister envAllOk initialState hKeyA =
      { res := .ok (), state := initialState, calls := [] } :=
  ⟨(c10_unregister_missing_noop envAllOk initialState hPlay Reachable.init).1
      (by decide) (by decide),
   (c10_unregister_missing_noop envAllOk initialState hKeyA Reachable.init).2
      (by decide) (by decide)⟩

end GlobalHotkey
